import Mathlib

/-!
Verification development for the MCTP transport stack of this firmware
repository: a shallow embedding of the server dispatch layer
(`task/mctp-server/src/server.rs`), the serial transport sender
(`task/mctp-server/src/serial.rs`) and the client channel API
(`task/mctp-api/src/lib.rs`), together with theorems settling the
specified properties of these components.

Byte values, endpoint ids, tag values, task ids and times are embedded
as `Nat` (the source uses `u8`/`u32`/`u64`; overflow is immaterial at
every input considered below except the wrapping `u64` subtraction in
`set_timer`, which is modelled explicitly modulo `2 ^ 64`).

The `mctp_stack` crate (Router, Fragmenter, serial handler) and the
`heapless`/`userlib`/`idol_runtime` support crates are external to this
repository; the small parts of their behaviour the server code depends
on are modelled from the spec and marked as such in their doc comments.
-/

namespace HubrisMctp

/-- The `mctp::Tag` enum: a locally allocated (Owned) or peer assigned
(Unowned) exchange correlation tag, carrying its 3 bit tag value. -/
inductive Tag where
  | Owned : Nat → Tag
  | Unowned : Nat → Tag
deriving DecidableEq, Repr

/-- Embeds `Tag::tag()`: the tag value carried by either variant. -/
def Tag.tagValue : Tag → Nat
  | .Owned v => v
  | .Unowned v => v

/-- A completed inbound MCTP message as handed out by the Router
(`mctp_stack::MctpMessage`): message type, integrity check flag, tag,
source EID and payload bytes. -/
structure MctpMessage where
  typ : Nat
  ic : Bool
  tag : Tag
  source : Nat
  payload : List Nat
deriving DecidableEq, Repr

/-- The caller context of one IPC call (`userlib::RecvMessage`), reduced
to the facts the server observes: the sender task id and the length of
the buffer the sender leased for the reply payload. -/
structure RecvMessage where
  sender : Nat
  bufLen : Nat
deriving DecidableEq, Repr

/-- Embeds `mctp_api::ipc::RecvMetadata`: metadata returned by a successful
recv reply. -/
structure RecvMetadata where
  msg_typ : Nat
  msg_ic : Bool
  msg_tag : Nat
  remote_eid : Nat
  size : Nat
deriving DecidableEq, Repr

/-- Embeds `mctp_api::ipc::ServerError`: the error codes the server surfaces
to clients. -/
inductive ServerError where
  | ServerRestarted
  | InternalError
  | NoSpace
  | AddrInUse
  | TimedOut
  | BadArgument
deriving DecidableEq, Repr

/-- One `sys_reply` emitted by the server: either a successful recv
reply (payload written to the lease plus metadata), a successful send
reply (the serialized tag value), or an error code reply. -/
inductive Reply where
  | msg : Nat → RecvMetadata → List Nat → Reply
  | tagOk : Nat → Nat → Reply
  | err : Nat → ServerError → Reply
deriving DecidableEq, Repr

/-- The task the reply is addressed to. -/
def Reply.sender : Reply → Nat
  | .msg s _ _ => s
  | .tagOk s _ => s
  | .err s _ => s

/-- Embeds `send_reply` (server.rs): if the message payload does not fit
the leased client buffer, reply `NoSpace`; otherwise write the payload
into the lease and reply success with the `RecvMetadata`.  (The
`write_range` client-death branch hits an unimplemented `todo!` in the
source and is outside this model: the client is assumed alive.) -/
def send_reply (msg : RecvMessage) (m : MctpMessage) : Reply :=
  if m.payload.length > msg.bufLen then
    .err msg.sender .NoSpace
  else
    .msg msg.sender
      ⟨m.typ, m.ic, m.tag.tagValue, m.source, m.payload.length⟩ m.payload

/-- Modelled from the spec: the Router state of the `mctp_stack` crate
(not under src/), reduced to what the server observes: the per handle
inbox of completed inbound messages (keyed by the `AppCookie` handle
value), and the milliseconds until the next Router internal
time-sensitive action, which is what `Router::update` returns. -/
structure RouterState where
  inbox : List (Nat × MctpMessage)
  nextTimeout : Nat
deriving DecidableEq, Repr

/-- Modelled from the spec: `Router::recv(cookie)` of the `mctp_stack`
crate (not under src/) is a non-blocking poll returning the next
reassembled message addressed to the handle of `cookie`, or none; a
returned message is removed from the inbox. -/
def routerRecv : List (Nat × MctpMessage) → Nat →
    Option MctpMessage × List (Nat × MctpMessage)
  | [], _ => (none, [])
  | (c, m) :: rest, cookie =>
      if c = cookie then (some m, rest)
      else
        let r := routerRecv rest cookie
        (r.1, (c, m) :: r.2)

/-- Modelled from the spec: `Router::update(now)` of the `mctp_stack`
crate (not under src/) drains the reassembler and returns the
milliseconds until the next time-sensitive action; with no new inbound
bytes (the situation in every claim below) the inbox is unchanged, and
under normal operation it does not fail. -/
def routerUpdate (r : RouterState) (_nowMillis : Nat) : Nat × RouterState :=
  (r.nextTimeout, r)

/-- The kernel timer state as read by `sys_get_timer`: the current time
and the currently programmed deadline, if any. -/
structure TimerState where
  now : Nat
  deadline : Option Nat
deriving DecidableEq, Repr

/-- Embeds `Server::set_timer` (server.rs): if a timer deadline is
already set and is sooner than the requested timeout, keep it and just
return the deadline the timeout corresponds to; otherwise program the
timer to the new deadline and return it.  The source computes
`deadline - state.now` on `u64`, which wraps on underflow in release
builds; this is modelled modulo `2 ^ 64`.  Both branches return
`now + timeout_millis`. -/
def set_timer (t : TimerState) (timeoutMillis : Nat) : Nat × TimerState :=
  match t.deadline with
  | some d =>
      if (d + 2 ^ 64 - t.now) % 2 ^ 64 < timeoutMillis then
        (t.now + timeoutMillis, t)
      else
        (t.now + timeoutMillis, { t with deadline := some (t.now + timeoutMillis) })
  | none => (t.now + timeoutMillis, { t with deadline := some (t.now + timeoutMillis) })

/-- The state of the `Server` struct (server.rs) together with the
kernel timer it manipulates: the Router model and the `outstanding`
table of postponed recv calls, a `heapless::LinearMap` embedded as an
association list in insertion order mapping each handle to the stored
caller context and deadline (keys are unique by construction, see
`server_recv`).  The fixed capacity `OUTSTANDING` of the map is not
modelled: the source panics via `unwrap_lite` on insertion into a full
map, and no claim below approaches the capacity. -/
structure ServerState where
  router : RouterState
  outstanding : List (Nat × RecvMessage × Nat)
  timer : TimerState
deriving DecidableEq, Repr

/-- Embeds `LinearMap::contains_key` on the outstanding table. -/
def containsKey (l : List (Nat × RecvMessage × Nat)) (h : Nat) : Bool :=
  l.any (fun e => e.1 == h)

/-- Embeds `Server::recv` (server.rs): if the Router has a message for
the handle, reply immediately via `send_reply` and remove any
outstanding entry for the handle.  Otherwise compute the deadline
(`set_timer(timeout_millis)`, or the sentinel 0 when
`timeout_millis == 0`) and insert a new outstanding entry unless one
already exists for the handle.  Returns the new state and the replies
emitted, in order. -/
def server_recv (st : ServerState) (msg : RecvMessage) (handle : Nat)
    (timeoutMillis : Nat) : ServerState × List Reply :=
  match routerRecv st.router.inbox handle with
  | (some m, inbox') =>
      ({ st with
           router := { st.router with inbox := inbox' },
           outstanding := st.outstanding.filter (fun e => !(e.1 == handle)) },
       [send_reply msg m])
  | (none, _) =>
      let dt :=
        if timeoutMillis ≠ 0 then set_timer st.timer timeoutMillis
        else (0, st.timer)
      if containsKey st.outstanding handle then
        ({ st with timer := dt.2 }, [])
      else
        ({ st with
             timer := dt.2,
             outstanding := st.outstanding ++ [(handle, msg, dt.1)] }, [])

/-- Embeds `heapless::Vec::push` with capacity `cap`, as used for the `marked`
vector in `Server::update`: the push is silently dropped when the
vector is full (the source discards the result with `let _ =`). -/
def vec_push (v : List Nat) (cap : Nat) (x : Nat) : List Nat :=
  if v.length < cap then v ++ [x] else v

/-- Embeds the sweep loop of `Server::update` (server.rs): for each
outstanding entry, first check the Router for a matching message and
reply with it if found (marking the entry), then - in the same
iteration, with no `else` between the two branches in the source -
check `now_millis >= deadline` and reply `TimedOut` if it holds (again
marking the entry).  Threads the Router inbox (message delivery
consumes the message) and the `marked` vector through the iteration;
returns the final inbox, the replies in emission order and the marked
handles. -/
def update_loop (now cap : Nat) :
    List (Nat × RecvMessage × Nat) → List (Nat × MctpMessage) → List Nat →
    List (Nat × MctpMessage) × List Reply × List Nat
  | [], inbox, marked => (inbox, [], marked)
  | (h, msg, dl) :: rest, inbox, marked =>
      let r := routerRecv inbox h
      let s1 : List Reply × List Nat :=
        match r.1 with
        | some m => ([send_reply msg m], vec_push marked cap h)
        | none => ([], marked)
      let s2 : List Reply × List Nat :=
        if now ≥ dl then (s1.1 ++ [.err msg.sender .TimedOut], vec_push s1.2 cap h)
        else s1
      let next := update_loop now cap rest r.2 s2.2
      (next.1, s2.1 ++ next.2.1, next.2.2)

/-- Embeds `Server::update` (server.rs): update the Router and rearm
the timer with the timeout it returns, sweep the outstanding table via
`update_loop`, then remove every marked entry from the table.  `cap` is
the `OUTSTANDING` const generic (16 at the instantiation in main.rs).
Returns the new state and the replies emitted, in order. -/
def server_update (st : ServerState) (nowMillis : Nat) (cap : Nat) :
    ServerState × List Reply :=
  let su := routerUpdate st.router nowMillis
  let tm := set_timer st.timer su.1
  let lp := update_loop nowMillis cap st.outstanding su.2.inbox []
  ({ router := { su.2 with inbox := lp.1 },
     outstanding := st.outstanding.filter (fun e => !(lp.2.2.contains e.1)),
     timer := tm.2 },
   lp.2.1)

/-- Embeds `MAX_OUTSTANDING` (main.rs): the `OUTSTANDING` capacity the server
is instantiated with. -/
def MAX_OUTSTANDING : Nat := 16

/-- Embeds `MAX_PAYLOAD` (server.rs): the maximum payload size of one send. -/
def MAX_PAYLOAD : Nat := 1023

/-- The set of arguments one `Router::send` invocation receives from
`Server::send` (server.rs): destination EID, message type, tag
argument, integrity check flag, the `AppCookie` wrapping the handle,
and the length of the payload buffer passed (the source always passes
the full `MAX_PAYLOAD` sized `msg_buf`, zero padded). -/
structure StackSendCall where
  eid : Option Nat
  typ : Nat
  tag : Option Tag
  ic : Bool
  cookie : Nat
  payloadLen : Nat
deriving DecidableEq, Repr

/-- The observable outcome of one `Server::send` call: the replies
emitted, the `Router::send` invocation performed (if any), and whether
the call panicked (the `todo!` reached when `read_range` on the client
lease fails). -/
structure SendOutcome where
  replies : List Reply
  stackCall : Option StackSendCall
  panicked : Bool
deriving DecidableEq, Repr

/-- Embeds `Server::send` (server.rs).  The source replies `NoSpace`
when the leased payload is longer than `MAX_PAYLOAD` but does not
return there; it then calls `read_range(0..buf.len())` into the
`MAX_PAYLOAD` sized local buffer, which cannot succeed for an
oversized lease, so the `is_err` branch reaches the `todo!` and the
call panics before `Router::send` is reached.  For a payload that
fits, the supplied optional tag value is wrapped as `Tag::Owned` and
`Router::send` is invoked; its result (`stackResult`, external to this
repository) is serialized back to the client as the tag value on
success or as an error code on failure. -/
def server_send (msg : RecvMessage) (handle : Nat) (typ : Nat)
    (eid : Option Nat) (tag : Option Nat) (ic : Bool) (bufLen : Nat)
    (stackResult : Except ServerError Tag) : SendOutcome :=
  if MAX_PAYLOAD < bufLen then
    { replies := [.err msg.sender .NoSpace], stackCall := none, panicked := true }
  else
    let call : StackSendCall :=
      { eid := eid, typ := typ, tag := tag.map Tag.Owned, ic := ic,
        cookie := handle, payloadLen := MAX_PAYLOAD }
    match stackResult with
    | .ok t =>
        { replies := [.tagOk msg.sender t.tagValue],
          stackCall := some call, panicked := false }
    | .error e =>
        { replies := [.err msg.sender e],
          stackCall := some call, panicked := false }

/-- The client side error type (`mctp::Error`), reduced to the variants
the channel code in mctp-api/src/lib.rs can produce or forward. -/
inductive MError where
  | InternalError
  | NoSpace
  | AddrInUse
  | TimedOut
  | BadArgument
  | Unsupported
deriving DecidableEq, Repr

/-- The arguments of one `ipc.send` call issued by a client channel
(mctp-api/src/lib.rs): handle, message type, optional destination EID,
optional tag value, integrity check flag. -/
structure IpcSendArgs where
  handle : Nat
  typ : Nat
  eid : Option Nat
  tag : Option Nat
  ic : Bool
deriving DecidableEq, Repr

/-- The `MctpReqChannel` client state (mctp-api/src/lib.rs): the server
handle, the remote EID the channel is bound to, the one-in-flight
guard `sent_tag`, and the recv timeout (0 means no timeout per the
field documentation). -/
structure MctpReqChannel where
  handle : Nat
  eid : Nat
  sent_tag : Option Tag
  timeout : Nat
deriving DecidableEq, Repr

/-- Decidable equality on `Except`, used to evaluate the channel
results at concrete inputs. -/
instance {ε α : Type} [DecidableEq ε] [DecidableEq α] :
    DecidableEq (Except ε α) := fun a b =>
  match a, b with
  | .ok x, .ok y =>
      if h : x = y then .isTrue (by rw [h]) else .isFalse (by simp [h])
  | .error x, .error y =>
      if h : x = y then .isTrue (by rw [h]) else .isFalse (by simp [h])
  | .ok _, .error _ => .isFalse (by simp)
  | .error _, .ok _ => .isFalse (by simp)

/-- Result of `MctpReqChannel::send`: the channel state afterwards, the
returned result, and the `ipc.send` call transmitted, if any. -/
structure ReqSendResult where
  channel : MctpReqChannel
  result : Except MError Unit
  ipcCall : Option IpcSendArgs
deriving DecidableEq, Repr

/-- Embeds `MctpReqChannel::send` (mctp-api/src/lib.rs): if `sent_tag`
is already set, return `BadArgument` without any IPC; otherwise invoke
`ipc.send(handle, typ, None, None, false, buf)` and, on success with
returned tag value `tv`, record `sent_tag = Some(Owned(tv))`.
`ipcResult` stands for the server reply to the IPC call. -/
def reqChannel_send (ch : MctpReqChannel) (typ : Nat)
    (ipcResult : Except MError Nat) : ReqSendResult :=
  if ch.sent_tag.isSome then
    { channel := ch, result := .error .BadArgument, ipcCall := none }
  else
    let call : IpcSendArgs :=
      { handle := ch.handle, typ := typ, eid := none, tag := none, ic := false }
    match ipcResult with
    | .ok tv =>
        { channel := { ch with sent_tag := some (Tag.Owned tv) },
          result := .ok (), ipcCall := some call }
    | .error e =>
        { channel := ch, result := .error e, ipcCall := some call }

/-- Result of `MctpReqChannel::recv`: the channel state afterwards and
the returned result. -/
structure ReqRecvResult where
  channel : MctpReqChannel
  result : Except MError RecvMetadata
deriving DecidableEq, Repr

/-- Embeds `MctpReqChannel::recv` (mctp-api/src/lib.rs): unless
`sent_tag` holds an Owned tag, return `BadArgument`; otherwise issue
`ipc.recv(handle, timeout, buf)` (its server reply stands as
`ipcResult`) and forward the result.  The source never resets
`sent_tag`, in particular not after a successful recv. -/
def reqChannel_recv (ch : MctpReqChannel)
    (ipcResult : Except MError RecvMetadata) : ReqRecvResult :=
  match ch.sent_tag with
  | some (Tag.Owned _) =>
      match ipcResult with
      | .ok md => { channel := ch, result := .ok md }
      | .error e => { channel := ch, result := .error e }
  | _ => { channel := ch, result := .error .BadArgument }

/-- The `MctpRespChannel` client state (mctp-api/src/lib.rs): server
handle, remote EID, message type and tag value captured from the
received request. -/
structure MctpRespChannel where
  handle : Nat
  eid : Nat
  typ : Nat
  tv : Nat
deriving DecidableEq, Repr

/-- Embeds `MctpRespChannel::send` (mctp-api/src/lib.rs): the arguments
it passes to `ipc.send` - the captured message type, `Some(eid)` and
`Some(tv)` with the integrity check flag false. -/
def respChannel_send_args (ch : MctpRespChannel) : IpcSendArgs :=
  { handle := ch.handle, typ := ch.typ, eid := some ch.eid,
    tag := some ch.tv, ic := false }

/-- The outcome variants of one `Fragmenter::fragment` call sequence
after the packets are exhausted (`mctp_stack::fragment::SendOutput`
minus the per packet case): completion carrying the tag, or an error. -/
inductive FragOutcome where
  | complete : Tag → FragOutcome
  | error : MError → FragOutcome
deriving DecidableEq, Repr

/-- Modelled from the spec: the Fragmenter of the `mctp_stack` crate
(not under src/) yields one framed packet per `fragment` call - each at
most MTU bytes, the final one flagged end of message - and then
`Complete` with the tag (or an error).  A fragmenter state is embedded
as the list of packet byte strings it will yield, in order, followed by
its final outcome. -/
structure Fragmenter where
  packets : List (List Nat)
  outcome : FragOutcome
deriving DecidableEq, Repr

/-- Embeds `SerialSender::send` (serial.rs): loop over
`fragmenter.fragment`; for every yielded packet the source calls
`serial_handler.send_sync(payload, ...)`, passing the raw `payload`
argument (the packet binding `p` is unused), and discards its result;
on `Complete { tag }` return `Ok(tag)`, on `Error { err }` return
`Err(err)`.  The first component collects the byte strings handed to
`send_sync`, in order. -/
def serialSender_send (frag : Fragmenter) (payload : List Nat) :
    List (List Nat) × Except MError Tag :=
  (frag.packets.map (fun _ => payload),
   match frag.outcome with
   | .complete t => .ok t
   | .error e => .error e)

/-- The outstanding table maps each handle to at most one entry. -/
def uniqueKeys (l : List (Nat × RecvMessage × Nat)) : Prop :=
  (l.map (fun e => e.1)).Nodup

/-! Helper lemmas shared by the claim theorems. -/

/-- Both branches of `set_timer` return `now + timeout_millis`. -/
theorem set_timer_fst (t : TimerState) (m : Nat) :
    (set_timer t m).1 = t.now + m := by
  rcases t with ⟨n, d⟩
  rcases d with _ | d
  · rfl
  · simp only [set_timer]
    split <;> rfl

/-- Lemma: `send_reply` replies to the sender of the stored call. -/
theorem send_reply_sender (msg : RecvMessage) (m : MctpMessage) :
    (send_reply msg m).sender = msg.sender := by
  unfold send_reply
  split <;> rfl

/-- A handle filtered out of the outstanding table is no longer a key. -/
theorem containsKey_filter_self (l : List (Nat × RecvMessage × Nat)) (h : Nat) :
    containsKey (l.filter (fun e => !(e.1 == h))) h = false := by
  induction l with
  | nil => rfl
  | cons a l ih =>
      rw [List.filter_cons]
      cases hb : (a.1 == h)
      · rw [if_pos (show (!false) = true by decide)]
        simp only [containsKey, List.any_cons, hb, Bool.false_or]
        exact ih
      · simp [hb, ih]

/-- A handle that `contains_key` rejects is not among the keys. -/
theorem not_mem_keys_of_containsKey_eq_false
    (l : List (Nat × RecvMessage × Nat)) (h : Nat)
    (hc : containsKey l h = false) : h ∉ l.map (fun e => e.1) := by
  intro hmem
  rcases List.mem_map.mp hmem with ⟨e, he, hkey⟩
  have : containsKey l h = true := by
    simp only [containsKey, List.any_eq_true]
    exact ⟨e, he, by simp [hkey]⟩
  simp [this] at hc

/-- Lemma: `server_recv` preserves uniqueness of the outstanding keys. -/
theorem server_recv_uniqueKeys (st : ServerState) (msg : RecvMessage)
    (handle timeoutMillis : Nat) (hu : uniqueKeys st.outstanding) :
    uniqueKeys (server_recv st msg handle timeoutMillis).1.outstanding := by
  unfold server_recv
  split
  · simp only [uniqueKeys] at hu ⊢
    exact (hu.sublist ((List.filter_sublist st.outstanding).map (fun e => e.1)))
  · by_cases hc : containsKey st.outstanding handle
    · simpa [hc] using hu
    · have hcf : containsKey st.outstanding handle = false := by
        simpa using hc
      simp only [uniqueKeys, hcf, Bool.false_eq_true, if_false, List.map_append,
        List.map_cons, List.map_nil] at hu ⊢
      rw [List.nodup_append]
      refine ⟨hu, List.nodup_singleton _, ?_⟩
      intro a ha hb
      have hae : a = handle := List.mem_singleton.mp hb
      exact not_mem_keys_of_containsKey_eq_false st.outstanding handle hcf
        (hae ▸ ha)

/-! The claim theorems. -/

/-- C1: the claim says the bytes emitted by `SerialSender::send` for each
fragment are exactly the packet bytes produced by the Fragmenter for that
iteration.  The source instead hands the raw unfragmented `payload` to
`serial_handler.send_sync` once per fragment (the packet binding `p` is
unused).  Evaluated at a fragmenter yielding the two framed packets
`[1, 2, 3]` and `[4, 5]` for the payload `[9, 9, 9, 9, 9, 9]`: both
emissions are the raw payload, not the packets. -/
theorem serial_send_emits_raw_payload_not_packets :
    (serialSender_send ⟨[[1, 2, 3], [4, 5]], .complete (Tag.Owned 0)⟩
        [9, 9, 9, 9, 9, 9]).1 = [[9, 9, 9, 9, 9, 9], [9, 9, 9, 9, 9, 9]]
    ∧ (serialSender_send ⟨[[1, 2, 3], [4, 5]], .complete (Tag.Owned 0)⟩
        [9, 9, 9, 9, 9, 9]).1 ≠ [[1, 2, 3], [4, 5]] := by
  exact ⟨rfl, by decide⟩

/-- C2: the claim says `Server::update` sends exactly one terminal
completion per outstanding entry, never both the delivered message and a
TimedOut error.  The two branches of the sweep are sequential `if`s with no
`else` in the source, so an entry whose deadline has passed and whose
message is available gets both replies.  Evaluated at the entry
(handle 1, sender 7, deadline 5) with its message already in the Router
inbox when `update(10)` runs: sender 7 receives the delivered message reply
followed by a TimedOut reply in the same sweep. -/
theorem update_delivers_and_times_out_same_entry :
    (server_update ⟨⟨[(1, ⟨5, false, Tag.Owned 2, 8, [1, 2]⟩)], 0⟩,
        [(1, ⟨7, 64⟩, 5)], ⟨10, none⟩⟩ 10 16).2
      = [Reply.msg 7 ⟨5, false, 2, 8, 2⟩ [1, 2], Reply.err 7 .TimedOut] := by
  decide

/-- C3: the claim says an outstanding entry stored with the sentinel
deadline 0 (a recv with `timeout_millis == 0`) is never completed with
TimedOut.  The source checks `now_millis >= deadline` with no
`deadline != 0` guard, so the sentinel entry times out at the very next
update: starting from the empty server, a recv with timeout 0 stores
deadline 0, and `update` already at `now = 0` replies TimedOut and removes
the entry. -/
theorem zero_timeout_entry_timed_out_at_first_update :
    (server_recv ⟨⟨[], 0⟩, [], ⟨0, none⟩⟩ ⟨7, 64⟩ 1 0).1.outstanding
        = [(1, ⟨7, 64⟩, 0)]
    ∧ (server_update (server_recv ⟨⟨[], 0⟩, [], ⟨0, none⟩⟩ ⟨7, 64⟩ 1 0).1
          0 16).2 = [Reply.err 7 .TimedOut]
    ∧ (server_update (server_recv ⟨⟨[], 0⟩, [], ⟨0, none⟩⟩ ⟨7, 64⟩ 1 0).1
          0 16).1.outstanding = [] := by
  decide

/-- C4: the claim says a send whose payload exceeds `MAX_PAYLOAD` gets
exactly one NoSpace reply and causes no stack send.  The source does reply
NoSpace and never reaches `Router::send`, but only because the missing
`return` after the reply lets control fall through to `read_range` on the
oversized lease, whose failure hits the `todo!` and panics the server
task.  Evaluated at a 1024 byte payload. -/
theorem oversized_send_noSpace_then_panics :
    server_send ⟨7, 64⟩ 1 5 none none false 1024 (.ok (Tag.Owned 0))
      = { replies := [Reply.err 7 .NoSpace], stackCall := none,
          panicked := true } := by
  decide

/-- C5: the claim says a send carrying a pre-existing tag (the response
path) passes the tag to the stack as an Unowned tag echoed verbatim.  The
source wraps the supplied value as `Tag::Owned` instead
(`tag.map(|x| Tag::Owned(TagValue(x)))`).  Evaluated at a response channel
that captured tag value 3: the `ipc.send` arguments carry `Some(3)`, and
the `Router::send` invocation receives `Owned 3`, not `Unowned 3`. -/
theorem response_tag_forwarded_as_owned_not_unowned :
    respChannel_send_args ⟨2, 8, 5, 3⟩
      = { handle := 2, typ := 5, eid := some 8, tag := some 3, ic := false }
    ∧ (server_send ⟨7, 64⟩ 2 5 (some 8) (some 3) false 4
          (.ok (Tag.Unowned 3))).stackCall
        = some { eid := some 8, typ := 5, tag := some (Tag.Owned 3),
                 ic := false, cookie := 2, payloadLen := 1023 }
    ∧ Tag.Owned 3 ≠ Tag.Unowned 3 := by
  decide

/-- C6: the claim says a request channel whose send completed and whose
matching recv then returned successfully accepts a subsequent send.  The
source never clears `sent_tag` (in particular `recv` does not), so the
guard stays set and the second send fails.  Evaluated at the sequence
send (tag 3 allocated) - recv (successful) - send: the recv succeeds, yet
the second send returns BadArgument and issues no IPC call. -/
theorem req_channel_second_send_after_completed_recv_fails :
    (reqChannel_recv (reqChannel_send ⟨1, 8, none, 0⟩ 5 (.ok 3)).channel
        (.ok ⟨5, false, 3, 8, 4⟩)).result = .ok ⟨5, false, 3, 8, 4⟩
    ∧ (reqChannel_send
        (reqChannel_recv (reqChannel_send ⟨1, 8, none, 0⟩ 5 (.ok 3)).channel
          (.ok ⟨5, false, 3, 8, 4⟩)).channel 5 (.ok 4)).result
        = .error MError.BadArgument
    ∧ (reqChannel_send
        (reqChannel_recv (reqChannel_send ⟨1, 8, none, 0⟩ 5 (.ok 3)).channel
          (.ok ⟨5, false, 3, 8, 4⟩)).channel 5 (.ok 4)).ipcCall = none := by
  decide

/-- C7: an outstanding recv with `timeout_millis = 100` stored at time
`now0` (deadline `now0 + 100`), with no inbound message: `update` at
`now0 + 100` completes the call with TimedOut and removes the entry, while
`update` at `now0 + 99` emits no reply and leaves the entry unchanged.
Holds for every start time, sender, client buffer length, Router timeout
and prior kernel timer state. -/
theorem timeout_boundary_exact (now0 sender blen nt : Nat)
    (tmr : Option Nat) :
    (server_recv ⟨⟨[], nt⟩, [], ⟨now0, tmr⟩⟩ ⟨sender, blen⟩ 1 100).1.outstanding
        = [(1, ⟨sender, blen⟩, now0 + 100)]
    ∧ (server_update
          (server_recv ⟨⟨[], nt⟩, [], ⟨now0, tmr⟩⟩ ⟨sender, blen⟩ 1 100).1
          (now0 + 100) 16).2 = [Reply.err sender .TimedOut]
    ∧ (server_update
          (server_recv ⟨⟨[], nt⟩, [], ⟨now0, tmr⟩⟩ ⟨sender, blen⟩ 1 100).1
          (now0 + 100) 16).1.outstanding = []
    ∧ (server_update
          (server_recv ⟨⟨[], nt⟩, [], ⟨now0, tmr⟩⟩ ⟨sender, blen⟩ 1 100).1
          (now0 + 99) 16).2 = []
    ∧ (server_update
          (server_recv ⟨⟨[], nt⟩, [], ⟨now0, tmr⟩⟩ ⟨sender, blen⟩ 1 100).1
          (now0 + 99) 16).1.outstanding
        = (server_recv ⟨⟨[], nt⟩, [], ⟨now0, tmr⟩⟩ ⟨sender, blen⟩ 1 100).1.outstanding := by
  have hrecv : (server_recv ⟨⟨[], nt⟩, [], ⟨now0, tmr⟩⟩ ⟨sender, blen⟩ 1 100).1
      = ⟨⟨[], nt⟩, [(1, ⟨sender, blen⟩, now0 + 100)],
         (set_timer ⟨now0, tmr⟩ 100).2⟩ := by
    unfold server_recv
    simp [routerRecv, containsKey, set_timer_fst]
  have hhit : (now0 + 100 ≥ now0 + 100) = True := by simp
  have hmiss : (now0 + 99 ≥ now0 + 100) = False := by
    simp only [eq_iff_iff, iff_false]
    omega
  rw [hrecv]
  refine ⟨rfl, ?_, ?_, ?_, ?_⟩ <;>
    simp [server_update, routerUpdate, update_loop, routerRecv, vec_push,
      hhit, hmiss]

/-- C8: a second recv call for a handle that already has an outstanding
entry and cannot be satisfied immediately leaves the outstanding table
(and hence the stored caller context and deadline of the existing entry)
completely unchanged; moreover `server_recv` preserves the at most one
entry per handle property of the table. -/
theorem pending_recv_not_overwritten (st : ServerState) (msg : RecvMessage)
    (handle timeoutMillis : Nat)
    (hno : (routerRecv st.router.inbox handle).1 = none)
    (hmem : containsKey st.outstanding handle = true) :
    (server_recv st msg handle timeoutMillis).1.outstanding = st.outstanding
    ∧ ∀ (st2 : ServerState) (msg2 : RecvMessage) (h2 t2 : Nat),
        uniqueKeys st2.outstanding →
        uniqueKeys (server_recv st2 msg2 h2 t2).1.outstanding := by
  refine ⟨?_, fun st2 msg2 h2 t2 hu =>
    server_recv_uniqueKeys st2 msg2 h2 t2 hu⟩
  unfold server_recv
  split
  · rename_i m inbox' heq
    rw [heq] at hno
    exact absurd hno (by simp)
  · simp [hmem]

/-- Witness for C8 at the state holding the entry (1, sender 7, deadline
50) with an empty inbox: the second recv (sender 9, timeout 200) leaves
the table unchanged. -/
theorem pending_recv_not_overwritten_witness :
    (routerRecv ((⟨⟨[], 0⟩, [(1, ⟨7, 64⟩, 50)], ⟨0, none⟩⟩ :
        ServerState).router.inbox) 1).1 = none
    ∧ containsKey (⟨⟨[], 0⟩, [(1, ⟨7, 64⟩, 50)], ⟨0, none⟩⟩ :
        ServerState).outstanding 1 = true
    ∧ ((server_recv ⟨⟨[], 0⟩, [(1, ⟨7, 64⟩, 50)], ⟨0, none⟩⟩
          ⟨9, 64⟩ 1 200).1.outstanding
        = (⟨⟨[], 0⟩, [(1, ⟨7, 64⟩, 50)], ⟨0, none⟩⟩ :
            ServerState).outstanding
      ∧ ∀ (st2 : ServerState) (msg2 : RecvMessage) (h2 t2 : Nat),
          uniqueKeys st2.outstanding →
          uniqueKeys (server_recv st2 msg2 h2 t2).1.outstanding) :=
  ⟨by decide, by decide,
   pending_recv_not_overwritten _ _ _ _ (by decide) (by decide)⟩

/-- C9: a second send on a request channel before the response has been
received returns BadArgument, transmits nothing over IPC and leaves the
channel state unchanged. -/
theorem second_send_before_recv_rejected (ch : MctpReqChannel) (typ : Nat)
    (ipcResult : Except MError Nat) (hs : ch.sent_tag.isSome = true) :
    reqChannel_send ch typ ipcResult
      = { channel := ch, result := .error .BadArgument, ipcCall := none } := by
  unfold reqChannel_send
  simp [hs]

/-- Witness for C9 at a channel whose first send allocated tag 1. -/
theorem second_send_before_recv_rejected_witness :
    (⟨1, 8, some (Tag.Owned 1), 0⟩ : MctpReqChannel).sent_tag.isSome = true
    ∧ reqChannel_send ⟨1, 8, some (Tag.Owned 1), 0⟩ 5 (.ok 2)
        = { channel := ⟨1, 8, some (Tag.Owned 1), 0⟩,
            result := .error .BadArgument, ipcCall := none } :=
  ⟨by decide, second_send_before_recv_rejected _ _ _ (by decide)⟩

/-- C10: when a recv call finds a message immediately available, the
server replies only to the new caller (every emitted reply targets the new
sender), removes any pre-existing outstanding entry for the handle, and
emits no reply for the removed entry - its stored caller is silently
dropped. -/
theorem immediate_recv_drops_pending_entry (st : ServerState)
    (msg : RecvMessage) (handle t : Nat) (m : MctpMessage)
    (inbox' : List (Nat × MctpMessage))
    (hm : routerRecv st.router.inbox handle = (some m, inbox')) :
    (server_recv st msg handle t).2 = [send_reply msg m]
    ∧ (∀ rp ∈ (server_recv st msg handle t).2, rp.sender = msg.sender)
    ∧ (server_recv st msg handle t).1.outstanding
        = st.outstanding.filter (fun e => !(e.1 == handle))
    ∧ containsKey (server_recv st msg handle t).1.outstanding handle
        = false := by
  have hs : server_recv st msg handle t
      = ({ st with
             router := { st.router with inbox := inbox' },
             outstanding :=
               st.outstanding.filter (fun e => !(e.1 == handle)) },
         [send_reply msg m]) := by
    unfold server_recv
    rw [hm]
  rw [hs]
  refine ⟨rfl, ?_, rfl, containsKey_filter_self _ _⟩
  intro rp hrp
  have hr : rp = send_reply msg m := by simpa using hrp
  rw [hr, send_reply_sender]

/-- Witness for C10: the state holds the entry (1, sender 9, deadline 0)
and the inbox a message for handle 1; a recv by sender 7 is answered with
the message, the entry for sender 9 is removed and receives no reply. -/
theorem immediate_recv_drops_pending_entry_witness :
    routerRecv ((⟨⟨[(1, ⟨5, false, Tag.Owned 2, 8, [1, 2]⟩)], 0⟩,
        [(1, ⟨9, 64⟩, 0)], ⟨0, none⟩⟩ : ServerState).router.inbox) 1
      = (some (⟨5, false, Tag.Owned 2, 8, [1, 2]⟩ : MctpMessage),
         ([] : List (Nat × MctpMessage)))
    ∧ ((server_recv ⟨⟨[(1, ⟨5, false, Tag.Owned 2, 8, [1, 2]⟩)], 0⟩,
          [(1, ⟨9, 64⟩, 0)], ⟨0, none⟩⟩ ⟨7, 64⟩ 1 0).2
        = [send_reply ⟨7, 64⟩ ⟨5, false, Tag.Owned 2, 8, [1, 2]⟩]
      ∧ (∀ rp ∈ (server_recv ⟨⟨[(1, ⟨5, false, Tag.Owned 2, 8, [1, 2]⟩)], 0⟩,
            [(1, ⟨9, 64⟩, 0)], ⟨0, none⟩⟩ ⟨7, 64⟩ 1 0).2,
          rp.sender = (⟨7, 64⟩ : RecvMessage).sender)
      ∧ (server_recv ⟨⟨[(1, ⟨5, false, Tag.Owned 2, 8, [1, 2]⟩)], 0⟩,
            [(1, ⟨9, 64⟩, 0)], ⟨0, none⟩⟩ ⟨7, 64⟩ 1 0).1.outstanding
          = (⟨⟨[(1, ⟨5, false, Tag.Owned 2, 8, [1, 2]⟩)], 0⟩,
              [(1, ⟨9, 64⟩, 0)], ⟨0, none⟩⟩ :
              ServerState).outstanding.filter (fun e => !(e.1 == 1))
      ∧ containsKey (server_recv ⟨⟨[(1, ⟨5, false, Tag.Owned 2, 8, [1, 2]⟩)], 0⟩,
            [(1, ⟨9, 64⟩, 0)], ⟨0, none⟩⟩ ⟨7, 64⟩ 1 0).1.outstanding 1
          = false) :=
  ⟨by decide,
   immediate_recv_drops_pending_entry _ _ _ _
     (⟨5, false, Tag.Owned 2, 8, [1, 2]⟩ : MctpMessage)
     ([] : List (Nat × MctpMessage)) (by decide)⟩

end HubrisMctp
